import Mathlib

set_option maxRecDepth 100000
set_option maxHeartbeats 1000000

/-
Verification development for the PycQED_py3 repository snapshot.

The supplied repository consists of exactly two files:
  * `examples/Setting up a basic measurement using the MC.ipynb`, a Jupyter
    demonstration notebook (code cells, markdown cells, and captured outputs);
  * `.travis.yml`, the Travis continuous-integration configuration.

Both artifacts are embedded below verbatim as Lean data: the notebook as its
ordered list of cells (with the exact source lines and the exact captured
output lines of every cell, apostrophes written as \x27, braces as \x7b/\x7d,
the hash sign as \x23, backticks as \x60), and the CI file both as its raw
lines and as its parsed phase structure.  All claims are settled as decidable
properties of this data.
-/

/-- Test whether `pat` is a prefix of the second character list. -/
def listStartsWith : List Char → List Char → Bool
  | [], _ => true
  | _ :: _, [] => false
  | p :: ps, c :: cs => p == c && listStartsWith ps cs

/-- Test whether `pat` occurs as a contiguous sublist. -/
def charsContains (pat : List Char) : List Char → Bool
  | [] => listStartsWith pat []
  | c :: cs => listStartsWith pat (c :: cs) || charsContains pat cs

/-- Substring test on strings. -/
def containsSub (s pat : String) : Bool := charsContains pat.data s.data

/-- Number of (possibly overlapping) occurrences of `pat`. -/
def countOccChars (pat : List Char) : List Char → Nat
  | [] => 0
  | c :: cs => (if listStartsWith pat (c :: cs) then 1 else 0) + countOccChars pat cs

/-- Number of occurrences of `pat` in `s`. -/
def countOcc (s pat : String) : Nat := countOccChars pat.data s.data

/-- Test whether `s` starts with `pat`. -/
def startsWith (s pat : String) : Bool := listStartsWith pat.data s.data

/-- Test whether `s` ends with `pat`. -/
def endsWith (s pat : String) : Bool := listStartsWith pat.data.reverse s.data.reverse

/-- The characters after the first occurrence of `pat`, if `pat` occurs. -/
def afterFirst (pat : List Char) : List Char → Option (List Char)
  | [] => none
  | c :: cs =>
    if listStartsWith pat (c :: cs) then some ((c :: cs).drop pat.length)
    else afterFirst pat cs

/-- The characters before the first occurrence of `stop`. -/
def takeUntilChar (stop : Char) : List Char → List Char
  | [] => []
  | c :: cs => if c == stop then [] else c :: takeUntilChar stop cs

/-- The ASCII apostrophe, the quote character of the notebook's Python string
literals. -/
def quoteChar : Char := Char.ofNat 39

/-- One captured output of a notebook code cell: either a `stream` output
(field `name` is `stdout` or `stderr` in the file) with its text lines, or an
`execute_result` with its `text/plain` lines. -/
inductive CellOutput where
  | stream (nm : String) (text : List String)
  | executeResult (text : List String)

/-- One notebook cell: a code cell with its source lines and captured
outputs, or a markdown cell with its source lines. -/
inductive NbCell where
  | code (source : List String) (outputs : List CellOutput)
  | markdown (source : List String)

/-- The text lines of an output. -/
def CellOutput.textLines : CellOutput → List String
  | .stream _ t => t
  | .executeResult t => t

/-- The source lines of a code cell (markdown cells contribute nothing). -/
def NbCell.codeLines : NbCell → List String
  | .code src _ => src
  | .markdown _ => []

/-- The source lines of any cell. -/
def NbCell.sourceLines : NbCell → List String
  | .code src _ => src
  | .markdown src => src

/-- The outputs of a cell. -/
def NbCell.outputs : NbCell → List CellOutput
  | .code _ outs => outs
  | .markdown _ => []

/-- The lines a cell printed on the `stdout` stream, in order. -/
def NbCell.stdoutLines (c : NbCell) : List String :=
  (c.outputs.filterMap fun o =>
    match o with
    | .stream nm t => if nm == "stdout" then some t else none
    | .executeResult _ => none).flatten

/-- The lines a cell printed on the `stderr` stream, in order. -/
def NbCell.stderrLines (c : NbCell) : List String :=
  (c.outputs.filterMap fun o =>
    match o with
    | .stream nm t => if nm == "stderr" then some t else none
    | .executeResult _ => none).flatten

/-- The cells of `examples/Setting up a basic measurement using the MC.ipynb`,
in order, with the exact source lines and captured output lines of each
cell. -/
def notebookCells : List NbCell :=
  [ NbCell.code
      [ "import pycqed as pq\n"
        , "import numpy as np\n"
        , "from pycqed.measurement import measurement_control\n"
        , "from pycqed.measurement.sweep_functions import None_Sweep\n"
        , "import pycqed.measurement.detector_functions as det\n"
        , "from qcodes import station\n"
        , "station = station.Station()\n" ]
      [ CellOutput.stream "stdout"
          [ "Data directory set to: /Users/Adriaan/Documents/Testing/Data\n" ] ]
  , NbCell.markdown
      [ "\x23\x23 Creating an instance of the measurement control\n"
        , "\n"
        , "Measurements are controlled through the \x60MeasurementControl\x60 usually instantiated as \x60MC\x60" ]
  , NbCell.code
      [ "MC = measurement_control.MeasurementControl(\x27MC\x27,live_plot_enabled=True, verbose=True)\n"
        , "MC.station = station\n"
        , "station.add_component(MC)" ]
      [ CellOutput.executeResult
          [ "\x27MC\x27" ] ]
  , NbCell.code
      [ "from pycqed.instrument_drivers.virtual_instruments import instrument_monitor as im \n"
        , "IM = im.InstrumentMonitor(\x27IM\x27, station)\n"
        , "station.add_component(IM)\n"
        , "\x23 Link the instrument monitor to the MC so that it gets updated in the loop\n"
        , "MC.instrument_monitor(\x27IM\x27)" ]
      [ CellOutput.stream "stderr"
          [ "WARNING:root:Error getting or interpreting *IDN?: \x27\x27\n" ] ]
  , NbCell.markdown
      [ "\x23\x23 Create instruments used in the experiment \n"
        , "Let\x27s start by creating a dummy instrument called MockParabola. \n" ]
  , NbCell.code
      [ "from pycqed.instrument_drivers.physical_instruments.dummy_instruments import DummyParHolder\n"
        , "dummy_instrument = DummyParHolder(\x27dummy_instrument\x27)\n"
        , "station.add_component(dummy_instrument)" ]
      [ CellOutput.executeResult
          [ "\x27dummy_instrument\x27" ] ]
  , NbCell.markdown
      [ "\x23\x23 A 1D hard measurement \n"
        , "A hard measurement is a measurement where the data acquisition loop happens in the **hard**ware." ]
  , NbCell.code
      [ "MC.soft_avg(15)\n"
        , "MC.persist_mode(True)\n"
        , "MC.set_sweep_function(None_Sweep(sweep_control=\x27hard\x27))\n"
        , "MC.set_sweep_points(np.linspace(0, 10, 30))\n"
        , "MC.set_detector_function(det.Dummy_Detector_Hard(noise=0.5, delay=.02))\n"
        , "dat = MC.run(\x27dummy_hard\x27)\n" ]
      [ CellOutput.stream "stdout"
          [ "Starting measurement: dummy_hard\n"
            , "Sweep function: None_Sweep\n"
            , "Detector function: Dummy_Detector\n"
            , " 100% completed \telapsed time: 1.1s \ttime left: 0.0s\n" ] ]
  , NbCell.markdown
      [ "By setting persist_mode = True we can see a copy of the last measurements" ]
  , NbCell.code
      [ "\n"
        , "MC.set_sweep_function(None_Sweep(sweep_control=\x27hard\x27))\n"
        , "MC.set_sweep_points(np.linspace(0, 10, 30))\n"
        , "MC.set_detector_function(det.Dummy_Detector_Hard(noise=0.5, delay=.02))\n"
        , "dat2 = MC.run(\x27dummy_hard persistent\x27)" ]
      [ CellOutput.stream "stdout"
          [ "Starting measurement: dummy_hard persistent\n"
            , "Sweep function: None_Sweep\n"
            , "Detector function: Dummy_Detector\n"
            , " 100% completed \telapsed time: 1.8s \ttime left: 0.0s\n" ] ]
  , NbCell.markdown
      [ "\x23 A simple 1D soft measurement \n"
        , "A soft measurement is a a measurement where the data acquisition loop occurs in the **soft**ware" ]
  , NbCell.code
      []
      []
  , NbCell.code
      []
      []
  , NbCell.code
      [ "dummy_instrument.x(145/134545)\n"
        , "IM.update()" ]
      []
  , NbCell.code
      [ "dummy_instrument.delay(.01)\n"
        , "MC.soft_avg(15)\n"
        , "MC.set_sweep_function(dummy_instrument.x)\n"
        , "MC.set_sweep_points(np.linspace(-1,1,30))\n"
        , "dummy_instrument.noise(1)\n"
        , "\n"
        , "MC.set_detector_function(dummy_instrument.parabola)\n"
        , "dat = MC.run(\x271D test\x27)\n"
        , "\n"
        , "\x23 the second plot will also show the first line\n"
        , "MC.set_sweep_function(dummy_instrument.x)\n"
        , "MC.set_sweep_points(np.linspace(-1,1,30))\n"
        , "\n"
        , "dat2= MC.run(\x271D test-persist\x27)" ]
      [ CellOutput.stream "stdout"
          [ "Starting measurement: 1D test\n"
            , "Sweep function: x\n"
            , "Detector function: parabola\n"
            , " 100% completed \telapsed time: 6.6s \ttime left: 0.0s\n"
            , "Starting measurement: 1D test-persist\n"
            , "Sweep function: x\n"
            , "Detector function: parabola\n"
            , " 100% completed \telapsed time: 7.5s \ttime left: 0.0s\n" ] ]
  , NbCell.markdown
      [ "You can play around a bit with the options in the MC: " ]
  , NbCell.code
      [ "MC.persist_mode(True) \x23 Turns on and off persistent plotting\n"
        , "MC.verbose(True)\n"
        , "MC.plotting_interval(.2)\n"
        , "MC.live_plot_enabled(True)" ]
      []
  , NbCell.markdown
      [ "\x23 A simple 2D measurement" ]
  , NbCell.code
      [ "dummy_instrument.delay(.0001)\n"
        , "MC.soft_avg(4)\n"
        , "\n"
        , "sweep_pts = np.linspace(-2, 2, 30)\n"
        , "sweep_pts_2D = np.linspace(-2, 2, 5)\n"
        , "\n"
        , "MC.set_sweep_function(dummy_instrument.x)\n"
        , "MC.set_sweep_function_2D(dummy_instrument.y)\n"
        , "MC.set_sweep_points(sweep_pts)\n"
        , "MC.set_sweep_points_2D(sweep_pts_2D)\n"
        , "MC.set_detector_function(dummy_instrument.parabola)\n"
        , "dat=MC.run(\x27test\x27, mode=\x272D\x27)\n" ]
      [ CellOutput.stream "stdout"
          [ "Starting measurement: test\n"
            , "Sweep function 0: x\n"
            , "Sweep function 1: Sweep_function\n"
            , "Detector function: parabola\n"
            , " 100% completed \telapsed time: 5.2s \ttime left: 0.0ss\n" ] ]
  , NbCell.markdown
      [ "\x23 2D combinatioin of a hard inner and soft outer loop\n"
        , "The hard inner loop returns 30 values " ]
  , NbCell.code
      [ "MC.soft_avg(1)\n"
        , "sweep_pts = np.linspace(0, 10, 30)\n"
        , "sweep_pts_2D = np.linspace(0, 10, 30)\n"
        , "MC.set_sweep_function(None_Sweep(sweep_control=\x27hard\x27))\n"
        , "MC.set_sweep_function_2D(None_Sweep(sweep_control=\x27soft\x27))\n"
        , "MC.set_sweep_points(sweep_pts)\n"
        , "MC.set_sweep_points_2D(sweep_pts_2D)\n"
        , "MC.set_detector_function(det.Dummy_Detector_Hard(delay=.05, noise=.1))\n"
        , "dat = MC.run(\x272D_hard\x27, mode=\x272D\x27)" ]
      [ CellOutput.stream "stdout"
          [ "Starting measurement: 2D_hard\n"
            , "Sweep function 0: None_Sweep\n"
            , "Sweep function 1: None_Sweep\n"
            , "Detector function: Dummy_Detector\n"
            , " 100% completed \telapsed time: 14.0s \ttime left: 0.0s\n" ] ]
  , NbCell.markdown
      [ "\x23\x23 A Hard measurement that uses soft averaging" ]
  , NbCell.markdown
      [ "The number of soft_averages determines how many times the experiment will be performed. \n"
        , "Only the averaged data is plotted and saved. \n"
        , "The number of soft-averages can be set as a parameter of the Measurement Control. \n"
        , "\n"
        , "Will first implement it for 1D hard sweeps (easier) and then follow for combinations of hard and soft sweeps. " ]
  , NbCell.code
      [ "MC.soft_avg(4)\n"
        , "MC.set_sweep_function(None_Sweep(sweep_control=\x27hard\x27))\n"
        , "MC.set_sweep_points(np.linspace(0, 10, 30))\n"
        , "MC.set_detector_function(det.Dummy_Detector_Hard(noise=1.5, delay=.02))\n"
        , "\n"
        , "dat = MC.run(\x27dummy_hard\x27)" ]
      [ CellOutput.stream "stdout"
          [ "Starting measurement: dummy_hard\n"
            , "Sweep function: None_Sweep\n"
            , "Detector function: Dummy_Detector\n"
            , " 100% completed \telapsed time: 1.1s \ttime left: 0.0s\n" ] ]
  , NbCell.markdown
      [ "\x23 2D soft averaging" ]
  , NbCell.code
      [ "MC.soft_avg(10)\n"
        , "sweep_pts = np.linspace(0, 10, 30)\n"
        , "sweep_pts_2D = np.linspace(0, 10, 5)\n"
        , "MC.set_sweep_function(None_Sweep(sweep_control=\x27hard\x27))\n"
        , "MC.set_sweep_function_2D(None_Sweep(sweep_control=\x27soft\x27))\n"
        , "MC.set_sweep_points(sweep_pts)\n"
        , "MC.set_sweep_points_2D(sweep_pts_2D)\n"
        , "MC.set_detector_function(det.Dummy_Detector_Hard(noise=1.5, delay=.001))\n"
        , "\n"
        , "dat = MC.run(\x27dummy_hard_2D\x27, mode=\x272D\x27)" ]
      [ CellOutput.stream "stdout"
          [ "Starting measurement: dummy_hard_2D\n"
            , "Sweep function 0: None_Sweep\n"
            , "Sweep function 1: None_Sweep\n"
            , "Detector function: Dummy_Detector\n"
            , " 100% completed \telapsed time: 16.7s \ttime left: 0.0s\n" ] ]
  , NbCell.markdown
      [ "\n"
        , "\x23\x23 Starting an adaptive measurement \n"
        , "This example does a 2D optimization over the mock parabola" ]
  , NbCell.code
      [ "from pycqed.measurement.optimization import nelder_mead\n"
        , "MC.soft_avg(1)\n"
        , "dummy_instrument\n"
        , "MC.set_sweep_functions([dummy_instrument.x, dummy_instrument.y])\n"
        , "MC.set_adaptive_function_parameters(\x7b\x27adaptive_function\x27:nelder_mead, \n"
        , "                                    \x27x0\x27:[-5,-5], \x27initial_step\x27: [2.5, 2.5]\x7d)\n"
        , "dummy_instrument.noise(.5)\n"
        , "MC.set_detector_function(dummy_instrument.parabola)\n"
        , "dat = MC.run(\x271D test\x27, mode=\x27adaptive\x27)\n" ]
      [ CellOutput.stream "stdout"
          [ "Starting measurement: 1D test\n"
            , "Sweep function 0: module\n"
            , "Sweep function 1: module\n"
            , "Detector function: parabola\n"
            , "Optimization completed in 1.564s\n" ] ]
  , NbCell.code
      []
      [] ]

/-- Path of the notebook file in the repository snapshot. -/
def notebookPath : String := "examples/Setting up a basic measurement using the MC.ipynb"

/-- Path of the CI configuration file in the repository snapshot. -/
def travisPath : String := ".travis.yml"

/-- The complete list of files supplied in the repository snapshot. -/
def repoFilePaths : List String := [travisPath, notebookPath]

/-- The raw lines of `.travis.yml`, transcribed verbatim (hash sign written
as \x23). -/
def travisRawLines : List String :=
  [ "language: python"
  , "notifications:"
  , "  email: false"
  , ""
  , "os:"
  , "  - linux"
  , ""
  , "python:"
  , "  - \"3.6\""
  , "  \x23 whitelist"
  , "\x23 branches:"
  , "\x23   only:"
  , "\x23     - master"
  , "\x23 command to install dependencies"
  , "install:"
  , "    - pip install --upgrade pip"
  , "    - pip install ipython"
  , "    - pip install -r develop_requirements.txt"
  , "    - pip install qcodes \x23 Added explictly here"
  , "    - pip install coverage pytest-cov pytest --upgrade"
  , "    - pip install codacy-coverage"
  , "    - pip install -e ."
  , ""
  , "before_script: \x23 configure a headless display to test plot generation"
  , "- \"export DISPLAY=:99.0\""
  , "- \"sh -e /etc/init.d/xvfb start\""
  , "- sleep 3 \x23 give xvfb some time to start"
  , ""
  , "\x23 command to run tests"
  , "script:"
  , "    - py.test pycqed/tests --cov=pycqed --cov-report xml --cov-config=.coveragerc"
  , ""
  , "after_success:"
  , "    - pip install codacy-coverage"
  , "    - python-codacy-coverage -r coverage.xml" ]

/-- The parsed Travis configuration: the command lists of the `install`,
`before_script`, `script` and `after_success` phases of `.travis.yml`
(YAML end-of-line comments after `\x23` stripped, per YAML plain-scalar
rules). -/
structure TravisCI where
  language : String
  install : List String
  before_script : List String
  script : List String
  after_success : List String

/-- The Travis configuration of `.travis.yml`. -/
def travis : TravisCI :=
  ⟨ "python"
  , [ "pip install --upgrade pip"
    , "pip install ipython"
    , "pip install -r develop_requirements.txt"
    , "pip install qcodes"
    , "pip install coverage pytest-cov pytest --upgrade"
    , "pip install codacy-coverage"
    , "pip install -e ." ]
  , [ "export DISPLAY=:99.0"
    , "sh -e /etc/init.d/xvfb start"
    , "sleep 3" ]
  , [ "py.test pycqed/tests --cov=pycqed --cov-report xml --cov-config=.coveragerc" ]
  , [ "pip install codacy-coverage"
    , "python-codacy-coverage -r coverage.xml" ] ⟩

/-- The commands of a Travis build in execution order: Travis runs the
`install` phase, then `before_script`, then `script`, then
`after_success`. -/
def ciRunOrder (t : TravisCI) : List String :=
  t.install ++ t.before_script ++ t.script ++ t.after_success

/-- Index of the first occurrence of `x` (length of the list when absent). -/
def idxOf (x : String) : List String → Nat
  | [] => 0
  | y :: ys => if y == x then 0 else idxOf x ys + 1

/-- All source lines of the notebook's code cells, in notebook order. -/
def allCodeLines : List String := (notebookCells.map NbCell.codeLines).flatten

/-- All source lines of the notebook (code and markdown cells). -/
def allNotebookLines : List String := (notebookCells.map NbCell.sourceLines).flatten

/-- All captured output lines of the notebook (stdout, stderr and
execute-result outputs alike). -/
def allOutputLines : List String :=
  (notebookCells.map fun c => (c.outputs.map CellOutput.textLines).flatten).flatten

/-- All captured stderr lines of the notebook. -/
def allStderrLines : List String := (notebookCells.map NbCell.stderrLines).flatten

/-- Every line of text appearing in the supplied files: notebook sources,
notebook captured outputs, and the raw CI configuration. -/
def allSuppliedLines : List String :=
  allNotebookLines ++ allOutputLines ++ travisRawLines

/-- Split captured stdout lines into run logs: each run log starts at a line
beginning `Starting measurement: ` and extends to the next such line.  Lines
before the first such line (the data-directory banner) belong to no run. -/
def runBlocksAux : List String → (List (List String) × List String)
  | [] => ([], [])
  | l :: ls =>
    let r := runBlocksAux ls
    if startsWith l "Starting measurement: " then ((l :: r.2) :: r.1, [])
    else (r.1, l :: r.2)

/-- The run logs contained in a list of stdout lines. -/
def runBlocks (ls : List String) : List (List String) := (runBlocksAux ls).1

/-- The run logs of every measurement run captured in the notebook, gathered
from the stdout streams of all cells in order. -/
def allRunBlocks : List (List String) :=
  runBlocks ((notebookCells.map NbCell.stdoutLines).flatten)

/-- A run log reports textual progress: a percentage complete together with
elapsed time and remaining time. -/
def hasProgressLine (b : List String) : Bool :=
  b.any fun l =>
    containsSub l "% completed" && containsSub l "elapsed time:" &&
      containsSub l "time left:"

/-- A run log reports the completion of an adaptive optimization instead. -/
def hasOptDoneLine (b : List String) : Bool :=
  b.any fun l => containsSub l "Optimization completed in"

/-- Extract from a source line the name passed to `MC.run`, together with
whether the call requests a two-dimensional sweep (`mode=\x272D\x27`) or an
adaptive run over a list of sweep functions (`mode=\x27adaptive\x27`), both of
which sweep two dimensions in this notebook. -/
def runSpecOfLine (l : String) : Option (String × Bool) :=
  match afterFirst "MC.run(\x27".data l.data with
  | none => none
  | some rest =>
    some ( String.mk (takeUntilChar quoteChar rest)
         , containsSub l "mode=\x272D\x27" || containsSub l "mode=\x27adaptive\x27" )

/-- Check one run log against the name passed to `MC.run` and the number of
sweep dimensions: the log begins `Starting measurement: <name>`, then either
a single unnumbered `Sweep function: ` line (one dimension) or a
`Sweep function 0: ` line followed by a `Sweep function 1: ` line (two
dimensions), then a `Detector function: ` line. -/
def checkBlock (nm : String) (twoDim : Bool) : List String → Bool
  | l0 :: l1 :: rest =>
    l0 == "Starting measurement: " ++ nm ++ "\n" &&
      (if twoDim then
        match rest with
        | l2 :: l3 :: _ =>
          startsWith l1 "Sweep function 0: " && startsWith l2 "Sweep function 1: " &&
            startsWith l3 "Detector function: "
        | _ => false
      else
        match rest with
        | l2 :: _ =>
          startsWith l1 "Sweep function: " && startsWith l2 "Detector function: "
        | _ => false)
  | _ => false

/-- Check all run logs of one cell against the `MC.run` calls of its source,
in order. -/
def cellRunsOk (c : NbCell) : Bool :=
  let runs := c.codeLines.filterMap runSpecOfLine
  let blocks := runBlocks c.stdoutLines
  runs.length == blocks.length &&
    (List.zip runs blocks).all fun rb => checkBlock rb.1.1 rb.1.2 rb.2

/-- Configuration state of the `MeasurementControl` accumulated while
scanning the notebook's code lines in order: which of the detector function,
first sweep function, sweep points, second (2D) sweep function, 2D sweep
points, sweep-function list and adaptive-function parameters have been
set. -/
structure MCState where
  det : Bool
  sw1 : Bool
  pts1 : Bool
  sw2 : Bool
  pts2 : Bool
  swList : Bool
  adapt : Bool

/-- The state before any notebook line has run: nothing is configured. -/
def mcInit : MCState := ⟨false, false, false, false, false, false, false⟩

/-- Update the configuration state with one source line. -/
def mcUpdate (st : MCState) (l : String) : MCState :=
  ⟨ st.det || containsSub l "set_detector_function("
  , st.sw1 || containsSub l "set_sweep_function("
  , st.pts1 || containsSub l "set_sweep_points("
  , st.sw2 || containsSub l "set_sweep_function_2D("
  , st.pts2 || containsSub l "set_sweep_points_2D("
  , st.swList || containsSub l "set_sweep_functions("
  , st.adapt || containsSub l "set_adaptive_function_parameters(" ⟩

/-- Requirement at a `MC.run` line: a 2D run needs a detector, both sweep
functions and both sweep-point lists; an adaptive run needs a detector,
sweep function(s) and adaptive-function parameters; a plain (1D) run needs a
detector, a sweep function and sweep points. -/
def runOk (st : MCState) (l : String) : Bool :=
  if containsSub l "mode=\x272D\x27" then
    st.det && st.sw1 && st.pts1 && st.sw2 && st.pts2
  else if containsSub l "mode=\x27adaptive\x27" then
    st.det && (st.swList || st.sw1) && st.adapt
  else
    st.det && st.sw1 && st.pts1

/-- Scan source lines in order, checking every `MC.run` line against the
configuration state established by the preceding lines. -/
def mcScan : MCState → List String → Bool
  | _, [] => true
  | st, l :: ls =>
    (!(containsSub l "MC.run(") || runOk st l) && mcScan (mcUpdate st l) ls

/-- Every occurrence of `sweep_control=` in the supplied text is immediately
followed by `\x27hard\x27` or `\x27soft\x27`. -/
def sweepControlValuesOk : List Char → Bool
  | [] => true
  | c :: cs =>
    (!(listStartsWith "sweep_control=".data (c :: cs)) ||
      (listStartsWith "\x27hard\x27".data ((c :: cs).drop "sweep_control=".data.length) ||
        listStartsWith "\x27soft\x27".data ((c :: cs).drop "sweep_control=".data.length))) &&
      sweepControlValuesOk cs

/-- The import evidence for each external object the notebook references:
the pycqed import line bringing it (or its module) into scope, and a line
referencing the object itself. -/
def importEvidence : List (String × String) :=
  [ ("from pycqed.measurement import measurement_control", "measurement_control.MeasurementControl")
  , ("from pycqed.measurement.sweep_functions import None_Sweep", "None_Sweep(")
  , ("import pycqed.measurement.detector_functions as det", "det.Dummy_Detector_Hard(")
  , ("from pycqed.instrument_drivers.physical_instruments.dummy_instruments import DummyParHolder", "DummyParHolder(")
  , ("from pycqed.measurement.optimization import nelder_mead", "nelder_mead") ]

/-- The external objects the notebook references without defining them. -/
def externalNames : List String :=
  ["MeasurementControl", "None_Sweep", "Dummy_Detector_Hard", "DummyParHolder", "nelder_mead"]

/-- In a cell that configures `MC.soft_avg`, a later line of the same cell
calls `MC.run`. -/
def softAvgConfiguredBeforeRun : List String → Bool
  | [] => true
  | l :: ls =>
    if containsSub l "MC.soft_avg(" then ls.any fun x => containsSub x "MC.run("
    else softAvgConfiguredBeforeRun ls

/-- Every notebook cell that configures `MC.soft_avg` does so before calling
`MC.run`, and at least one cell does configure it. -/
def softAvgUsage : Bool :=
  (notebookCells.all fun c => softAvgConfiguredBeforeRun c.codeLines) &&
    (notebookCells.any fun c => c.codeLines.any fun l => containsSub l "MC.soft_avg(")

/-- Running the experiment `k` times and accumulating the point-wise sum of
the acquired values: `exp k i` is the value measured for point `i` on the
`k`-th repetition of the measurement. -/
def accumRun (exp : Nat → Nat → Rat) : Nat → Nat → Rat
  | 0, _ => 0
  | Nat.succ k, i => accumRun exp k i + exp k i

/-- Modelled from the spec: the `MeasurementControl` implementation
(`pycqed/measurement/measurement_control.py`) is not among the supplied
files.  Per the spec glossary ("Soft averaging: repeating an entire
measurement multiple times and averaging results") and the notebook's own
markdown ("The number of soft_averages determines how many times the
experiment will be performed", "Only the averaged data is plotted and
saved"), soft averaging with `n` soft averages repeats the entire
measurement of `npts` sweep points `n` times and returns the point-wise
average of the results. -/
def softAvgRun (n npts : Nat) (exp : Nat → Nat → Rat) : List Rat :=
  (List.range npts).map fun i => accumRun exp n i / (n : Rat)

/-- Claim C1: the supplied source files contain no implementation of the
measurement engine, sweep functions, detector functions, or data storage:
every file in the repository is either the demonstration notebook or the CI
configuration `.travis.yml`, and no Python implementation source (`.py`
file) is present. -/
theorem claim_C1 :
    repoFilePaths.length = 2 ∧
    (repoFilePaths.all fun p => p == travisPath || p == notebookPath) = true ∧
    (repoFilePaths.all fun p => !(endsWith p ".py")) = true := by
  decide

/-- Claim C2, counterexample: not every measurement run captured in the
notebook prints a progress line with a percentage complete, elapsed time and
remaining time.  The ninth captured run (index 8, the adaptive run
`1D test` with `mode=\x27adaptive\x27`) prints
`Optimization completed in 1.564s` and no percentage/elapsed/remaining
progress line. -/
theorem claim_C2_counterexample :
    (allRunBlocks.all hasProgressLine) = false ∧
    allRunBlocks[8]? = some
      [ "Starting measurement: 1D test\n"
      , "Sweep function 0: module\n"
      , "Sweep function 1: module\n"
      , "Detector function: parabola\n"
      , "Optimization completed in 1.564s\n" ] ∧
    hasProgressLine
      [ "Starting measurement: 1D test\n"
      , "Sweep function 0: module\n"
      , "Sweep function 1: module\n"
      , "Detector function: parabola\n"
      , "Optimization completed in 1.564s\n" ] = false := by
  decide

/-- Claim C2 (amended): the notebook captures nine measurement runs on
standard output; every run log except one reports textual progress (a
percentage complete together with elapsed time and remaining time), and the
single exception (the adaptive run) reports
`Optimization completed in ...s` instead. -/
theorem claim_C2 :
    allRunBlocks.length = 9 ∧
    (allRunBlocks.all fun b => hasProgressLine b || hasOptDoneLine b) = true ∧
    (allRunBlocks.filter fun b => !(hasProgressLine b)).length = 1 := by
  decide

/-- Claim C3: the CI `script` phase invokes py.test over `pycqed/tests` with
coverage reporting (`--cov`), every `install` phase step is a package
installation (`pip install`), and in the CI run order every install step
precedes every script step. -/
theorem claim_C3 :
    travis.script =
      ["py.test pycqed/tests --cov=pycqed --cov-report xml --cov-config=.coveragerc"] ∧
    (travis.script.all fun s =>
      containsSub s "py.test" && containsSub s "pycqed/tests" && containsSub s "--cov") = true ∧
    (travis.install.all fun c => containsSub c "pip install") = true ∧
    (travis.install.all fun c => travis.script.all fun s =>
      Nat.blt (idxOf c (ciRunOrder travis)) (idxOf s (ciRunOrder travis))) = true := by
  decide

/-- Claim C4: the only error-related content of the supplied files is the
single warning line `WARNING:root:Error getting or interpreting *IDN?: ...`:
it is the only captured stderr line, the substring `Error` occurs exactly
once across all captured outputs (on that stderr line), and no source line
of the notebook or the CI file contains error-handling logic
(`try:`/`except`/`raise`). -/
theorem claim_C4 :
    allStderrLines = ["WARNING:root:Error getting or interpreting *IDN?: \x27\x27\n"] ∧
    ((allOutputLines.map fun l => countOcc l "Error").foldl Nat.add 0) = 1 ∧
    (allStderrLines.all fun l =>
      containsSub l "Error getting or interpreting *IDN?") = true ∧
    ((allNotebookLines ++ travisRawLines).all fun l =>
      !(containsSub l "try:") && !(containsSub l "except") &&
        !(containsSub l "raise ")) = true := by
  decide

/-- Claim C5: the notebook references each of `MeasurementControl`,
`None_Sweep`, `Dummy_Detector_Hard`, `DummyParHolder` and `nelder_mead` via
imports from pycqed modules (for each object, both the pycqed import line
and a referencing line occur in the code cells), and none of these objects
is defined (`class ...`/`def ...`) anywhere in the supplied files. -/
theorem claim_C5 :
    (importEvidence.all fun p =>
      (allCodeLines.any fun l => containsSub l p.1) &&
        (allCodeLines.any fun l => containsSub l p.2)) = true ∧
    (externalNames.all fun n => allSuppliedLines.all fun l =>
      !(containsSub l (String.append "class " n)) &&
        !(containsSub l (String.append "def " n))) = true := by
  decide

/-- Accumulating `n` repetitions of the measurement sums the measured value
of each point over the repetitions. -/
theorem accumRun_eq_sum (exp : Nat → Nat → Rat) (n i : Nat) :
    accumRun exp n i = Finset.sum (Finset.range n) fun k => exp k i := by
  induction n with
  | zero => simp [accumRun]
  | succ k ih => simp [accumRun, Finset.sum_range_succ, ih]

/-- Claim C6: soft averaging repeats the entire measurement `n` times and
averages the results — the modelled `softAvgRun`, which performs the `n`
repetitions one after the other, returns for every sweep point the average
of the `n` measured values — and in the notebook the number of soft
averages is always configured as a `MeasurementControl` parameter via
`MC.soft_avg(n)` before the cell's `MC.run` call. -/
theorem claim_C6 :
    softAvgUsage = true ∧
    ∀ (n npts : Nat) (exp : Nat → Nat → Rat),
      softAvgRun n npts exp =
        (List.range npts).map fun i =>
          (Finset.sum (Finset.range n) fun k => exp k i) / (n : Rat) := by
  refine ⟨by decide, ?_⟩
  intro n npts exp
  unfold softAvgRun
  simp only [accumRun_eq_sum]

/-- Claim C6, witness: the soft average of two repetitions of a one-point
measurement returning `k` on repetition `k` is the average of the two
values. -/
theorem claim_C6_witness :
    softAvgUsage = true ∧
    softAvgRun 2 1 (fun k _ => (k : Rat)) =
      (List.range 1).map fun _ =>
        (Finset.sum (Finset.range 2) fun k => (k : Rat)) / ((2 : Nat) : Rat) :=
  ⟨claim_C6.1, claim_C6.2 2 1 (fun k _ => (k : Rat))⟩

/-- Claim C7: every sweep function constructed in the notebook (every
`None_Sweep(...)` construction) specifies `sweep_control`, every occurrence
of `sweep_control=` anywhere in the supplied files is immediately followed
by `\x27hard\x27` or `\x27soft\x27` (so no other value appears), and both
values actually occur. -/
theorem claim_C7 :
    (allSuppliedLines.all fun l => sweepControlValuesOk l.data) = true ∧
    (allCodeLines.all fun l =>
      !(containsSub l "None_Sweep(") || containsSub l "sweep_control=") = true ∧
    (allCodeLines.any fun l => containsSub l "sweep_control=\x27hard\x27") = true ∧
    (allCodeLines.any fun l => containsSub l "sweep_control=\x27soft\x27") = true := by
  decide

/-- Claim C8: scanning the notebook's code lines in order, every one of the
nine `MC.run` calls is preceded (in its own cell or an earlier cell) by
setting a detector function and the sweep configuration its mode requires:
sweep function and sweep points for a 1D run, additionally a second sweep
function and 2D sweep points for a `mode=\x272D\x27` run, and sweep
function(s) plus adaptive-function parameters for a `mode=\x27adaptive\x27`
run. -/
theorem claim_C8 :
    mcScan mcInit allCodeLines = true ∧
    (allCodeLines.filter fun l => containsSub l "MC.run(").length = 9 := by
  decide

/-- Claim C9: in every notebook cell, the captured run logs match the
`MC.run` calls in order: each log begins `Starting measurement: <name>`
with `<name>` the string passed to `MC.run`, followed by the sweep function
line(s) and the detector function line; runs sweeping two dimensions
(`mode=\x272D\x27` or the two-sweep-function `mode=\x27adaptive\x27` run)
label them `Sweep function 0: ` then `Sweep function 1: ` in that order,
while 1D runs print a single unnumbered `Sweep function: ` line.  Nine run
logs are captured in total. -/
theorem claim_C9 :
    (notebookCells.all cellRunsOk) = true ∧
    ((notebookCells.map fun c => (runBlocks c.stdoutLines).length).foldl Nat.add 0) = 9 := by
  decide

/-- Claim C10: the CI configuration establishes a headless X display before
the test phase: its `before_script` phase is exactly
`export DISPLAY=:99.0`, the xvfb start command, and `sleep 3`, and in the
CI run order every `before_script` command precedes every `script`
command. -/
theorem claim_C10 :
    travis.before_script =
      ["export DISPLAY=:99.0", "sh -e /etc/init.d/xvfb start", "sleep 3"] ∧
    (travis.before_script.all fun b => travis.script.all fun s =>
      Nat.blt (idxOf b (ciRunOrder travis)) (idxOf s (ciRunOrder travis))) = true := by
  decide
